import Mathlib

/-!
Verification of LINBIT/gosshclient against its design specification.

Part 1 embeds `env.go` (the variant that validates names with the external
`shellescape` library): `AddEnv` builds a shell prologue of
`NAME=<quoted value>; export NAME` lines in front of a script.

Part 2 embeds the `SSHClient` lifecycle of `sshclient.go` (the variant with a
`done` channel and context-aware dialing): connect, close, and the two
execution operations, modelled as explicit state transformers over an oracle
that fixes the outcome of every external collaborator call, together with the
trace of external calls each operation performs.
-/

namespace GoSSHClient

/-- Characters the external `shellescape` library leaves unquoted: the Go
regexp class the ASCII word characters `0-9 A-Z a-z _` plus `@ % + = : , . /` and `-`.
`Quote` returns its argument unchanged exactly when the argument is nonempty
and every character is in this set. -/
def isSafeChar (c : Char) : Bool :=
  ('a' ≤ c && c ≤ 'z') || ('A' ≤ c && c ≤ 'Z') || ('0' ≤ c && c ≤ '9') ||
  c = '_' || c = '@' || c = '%' || c = '+' || c = '=' || c = ':' || c = ',' ||
  c = '.' || c = '/' || c = '-'

/-- `strings.Replace(s, "'", "'\"'\"'", -1)` at the character-list level:
every apostrophe becomes the five characters `'"'"'`, every other character
is kept. Replacing a single-character pattern is exactly this map-concat. -/
def goReplaceQuote : List Char → List Char
  | [] => []
  | c :: cs => (if c = '\'' then ['\'', '"', '\'', '"', '\''] else [c]) ++ goReplaceQuote cs

/-- `shellescape.Quote` (github.com/alessio/shellescape), the external escaping
collaborator of `env.go`: the empty string becomes `''`; a string containing a
character outside the safe set is wrapped in single quotes with embedded
apostrophes rewritten to `'"'"'`; any other string is returned unchanged. -/
def Quote (s : String) : String :=
  if s.data = [] then "''"
  else if s.data.all isSafeChar then s
  else String.mk ('\'' :: (goReplaceQuote s.data ++ ['\'']))

/-- `strings.SplitN(kv, "=", 2)`: the characters before the first `'='` and,
when a `'='` occurs at all, `some` of the remainder after it (which may itself
contain `'='`). `none` in the second component models the one-element slice Go
returns when the separator does not occur. -/
def splitEq : List Char → List Char × Option (List Char)
  | [] => ([], none)
  | c :: cs =>
    if c = '=' then ([], some cs)
    else
      let r := splitEq cs
      (c :: r.1, r.2)

/-- One prologue line of `AddEnv`:
`fmt.Sprintf("%s=%s; export %s\n", name, Quote value, name)`. -/
def envLine (name value : String) : String :=
  name ++ "=" ++ Quote value ++ "; export " ++ name ++ "\n"

/-- The loop of `AddEnv` with the accumulated `envBlob`. The result models
Go's `(string, error)` pair; the outer `none` models the runtime
index-out-of-range fault raised by `kvs[1]` when a declaration contains no
`'='` (the one-element slice) yet its name passes the quoting check. -/
def addEnvLoop (script : String) : List String → String → Option (String × Option String)
  | [], envBlob => some (envBlob ++ script, none)
  | kv :: rest, envBlob =>
    let s := splitEq kv.data
    let name := String.mk s.1
    if name ≠ Quote name then some ("", some "shell variable name not valid")
    else
      match s.2 with
      | none => none
      | some v => addEnvLoop script rest (envBlob ++ envLine name (String.mk v))

/-- `AddEnv(script, env)` from `env.go`: prepends the validated, escaped
export prologue to `script`. -/
def AddEnv (script : String) (env : List String) : Option (String × Option String) :=
  addEnvLoop script env ""

example : AddEnv "echo hi" [] = some ("echo hi", none) := rfl

example : AddEnv "echo $FOO" ["FOO=bar baz"] =
    some ("FOO='bar baz'; export FOO\necho $FOO", none) := by decide

example : AddEnv "x" ["BAD NAME=x"] = some ("", some "shell variable name not valid") := by decide

example : AddEnv "echo hi" ["1BAD=x"] = some ("1BAD=x; export 1BAD\necho hi", none) := by decide

example : AddEnv "" ["FOO"] = none := by decide

/-- Quoting state of the POSIX word-expansion model: outside quotes, inside
single quotes, inside double quotes. -/
inductive QMode
  | unq
  | sq
  | dq

/-- Conservative model of POSIX shell word expansion, used to state the
round-trip property of the spec: the word is read left to right, single-quoted
segments are literal, double-quoted segments are literal as long as they hold
none of the expansion characters, and unquoted characters are accepted only
from the shell-neutral safe set. Any construct outside this fragment (an
unquoted character the shell could treat specially, an expansion character
inside double quotes, an unterminated quote) yields `none`; on the accepted
fragment the model agrees exactly with a POSIX shell. -/
def interpAux : QMode → List Char → List Char → Option (List Char)
  | QMode.unq, [], acc => some acc.reverse
  | QMode.sq, [], _ => none
  | QMode.dq, [], _ => none
  | QMode.unq, c :: cs, acc =>
    if c = '\'' then interpAux QMode.sq cs acc
    else if c = '"' then interpAux QMode.dq cs acc
    else if isSafeChar c then interpAux QMode.unq cs (c :: acc)
    else none
  | QMode.sq, c :: cs, acc =>
    if c = '\'' then interpAux QMode.unq cs acc
    else interpAux QMode.sq cs (c :: acc)
  | QMode.dq, c :: cs, acc =>
    if c = '"' then interpAux QMode.unq cs acc
    else if c = '$' || c = '\\' || c = Char.ofNat 96 then none
    else interpAux QMode.dq cs (c :: acc)

/-- The value a POSIX-compatible shell assigns when the given word appears as
the right-hand side of an assignment, on the fragment `interpAux` accepts. -/
def shellWordExpand (s : String) : Option String :=
  (interpAux QMode.unq s.data []).map String.mk

/-- First character of a POSIX shell identifier: `[A-Za-z_]`. -/
def isNameStart (c : Char) : Bool :=
  ('A' ≤ c && c ≤ 'Z') || ('a' ≤ c && c ≤ 'z') || c = '_'

/-- Later character of a POSIX shell identifier: `[A-Za-z0-9_]`. -/
def isNameChar (c : Char) : Bool :=
  isNameStart c || ('0' ≤ c && c ≤ '9')

/-- The spec's name shape: nonempty and matching the anchored regex
`[A-Za-z_][A-Za-z0-9_]*`. -/
def validShellName (s : String) : Bool :=
  match s.data with
  | [] => false
  | c :: cs => isNameStart c && cs.all isNameChar

example : shellWordExpand (Quote "bar baz") = some "bar baz" := by decide

example : shellWordExpand (Quote "a'b$`x") = some "a'b$`x" := by decide

example : shellWordExpand (Quote "") = some "" := by decide

/-- A valid later-identifier character is in the safe set `Quote` leaves
unquoted. -/
theorem isSafeChar_of_isNameChar (c : Char) (h : isNameChar c = true) :
    isSafeChar c = true := by
  simp only [isNameChar, isNameStart, Bool.or_eq_true, Bool.and_eq_true,
    decide_eq_true_eq] at h
  simp only [isSafeChar, Bool.or_eq_true, Bool.and_eq_true, decide_eq_true_eq]
  tauto

/-- A valid identifier character is not `'='`. -/
theorem isNameChar_ne_eqSign (c : Char) (h : isNameChar c = true) : c ≠ '=' := by
  rintro rfl
  exact absurd h (by decide)

/-- `strings.SplitN` on a string whose prefix holds no separator splits it at
the first `'='`. -/
theorem splitEq_append (n v : List Char) (h : ∀ c ∈ n, c ≠ '=') :
    splitEq (n ++ '=' :: v) = (n, some v) := by
  induction n with
  | nil => simp [splitEq]
  | cons c cs ih =>
    have hc : c ≠ '=' := h c (by simp)
    simp only [List.cons_append, splitEq, if_neg hc, List.append_eq,
      ih (fun d hd => h d (List.mem_cons_of_mem _ hd))]

/-- `Quote` is the identity on nonempty all-safe strings. -/
theorem quote_of_safe (s : String) (h0 : s.data ≠ []) (h : s.data.all isSafeChar = true) :
    Quote s = s := by
  simp [Quote, h0, h]

/-- A spec-valid shell name is left unchanged by `Quote`. -/
theorem quote_of_validShellName (s : String) (h : validShellName s = true) :
    Quote s = s := by
  cases s with
  | mk d =>
    cases d with
    | nil => exact absurd h (by decide)
    | cons c cs =>
      simp only [validShellName, List.all_eq_true, Bool.and_eq_true] at h
      apply quote_of_safe _ (by simp)
      simp only [String.data, List.all_cons, List.all_eq_true, Bool.and_eq_true]
      constructor
      · exact isSafeChar_of_isNameChar c (by simp [isNameChar, h.1])
      · exact fun d hd => isSafeChar_of_isNameChar d (h.2 d hd)

/-- No character of a spec-valid shell name is `'='`. -/
theorem validShellName_no_eqSign (s : String) (h : validShellName s = true) :
    ∀ c ∈ s.data, c ≠ '=' := by
  cases s with
  | mk d =>
    cases d with
    | nil => exact absurd h (by decide)
    | cons c cs =>
      simp only [validShellName, List.all_eq_true, Bool.and_eq_true] at h
      intro x hx
      rcases List.mem_cons.mp hx with rfl | hx
      · exact isNameChar_ne_eqSign x (by simp [isNameChar, h.1])
      · exact isNameChar_ne_eqSign x (h.2 x hx)

/-- In unquoted mode, a run of safe characters is read literally. -/
theorem interpAux_safe (l acc : List Char) (h : ∀ c ∈ l, isSafeChar c = true) :
    interpAux QMode.unq l acc = some (acc.reverse ++ l) := by
  induction l generalizing acc with
  | nil => simp [interpAux]
  | cons c cs ih =>
    have hc : isSafeChar c = true := h c (by simp)
    have h1 : c ≠ '\'' := by rintro rfl; exact absurd hc (by decide)
    have h2 : c ≠ '"' := by rintro rfl; exact absurd hc (by decide)
    rw [interpAux, if_neg h1, if_neg h2, if_pos hc,
      ih (c :: acc) (fun d hd => h d (List.mem_cons_of_mem _ hd))]
    simp

/-- Stepping the expansion model over the five-character escape `'"'"'`
emitted for an embedded apostrophe, starting inside single quotes, appends a
literal apostrophe and returns to single-quoted mode. -/
theorem interpAux_sq_escape (t acc : List Char) :
    interpAux QMode.sq ('\'' :: '"' :: '\'' :: '"' :: '\'' :: t) acc =
      interpAux QMode.sq t ('\'' :: acc) := rfl

/-- Inside single quotes, the body produced by the apostrophe-escaping
replacement followed by the closing quote is read back as the original
characters. -/
theorem interpAux_sq_replace (l acc : List Char) :
    interpAux QMode.sq (goReplaceQuote l ++ ['\'']) acc = some (acc.reverse ++ l) := by
  induction l generalizing acc with
  | nil => simp [goReplaceQuote, interpAux]
  | cons c cs ih =>
    by_cases hc : c = '\''
    · subst hc
      have hsplit : goReplaceQuote ('\'' :: cs) ++ ['\''] =
          '\'' :: '"' :: '\'' :: '"' :: '\'' :: (goReplaceQuote cs ++ ['\'']) := by
        simp [goReplaceQuote]
      rw [hsplit, interpAux_sq_escape, ih]
      simp
    · have hsplit : goReplaceQuote (c :: cs) ++ ['\''] =
          c :: (goReplaceQuote cs ++ ['\'']) := by
        simp [goReplaceQuote, hc]
      rw [hsplit, interpAux, if_neg hc, ih]
      simp

/-- Round trip: interpreting `Quote v` as a POSIX shell word yields exactly
`v`, for every string `v`. -/
theorem shellWordExpand_quote (v : String) : shellWordExpand (Quote v) = some v := by
  cases v with
  | mk d =>
    by_cases h0 : d = []
    · subst h0; decide
    · by_cases hs : List.all d isSafeChar
      · rw [quote_of_safe (String.mk d) h0 hs]
        show (interpAux QMode.unq d []).map String.mk = some (String.mk d)
        rw [interpAux_safe d [] (fun c hc => by
          exact List.all_eq_true.mp hs c hc)]
        simp
      · show shellWordExpand (Quote (String.mk d)) = some (String.mk d)
        rw [Quote, if_neg (by simpa using h0), if_neg (by simpa using hs)]
        show (interpAux QMode.unq ('\'' :: (goReplaceQuote d ++ ['\''])) []).map String.mk
          = some (String.mk d)
        have step : interpAux QMode.unq ('\'' :: (goReplaceQuote d ++ ['\''])) [] =
            interpAux QMode.sq (goReplaceQuote d ++ ['\'']) [] := rfl
        rw [step, interpAux_sq_replace]
        simp

/-- Concatenation of a list of strings, in order. -/
def strConcat : List String → String
  | [] => ""
  | s :: rest => s ++ strConcat rest

/-- A declaration the `AddEnv` loop processes without error or fault: it
contains a `'='`, and quoting its name leaves the name unchanged. -/
def declOk (kv : String) : Prop :=
  (splitEq kv.data).2.isSome = true ∧
    String.mk (splitEq kv.data).1 = Quote (String.mk (splitEq kv.data).1)

instance (kv : String) : Decidable (declOk kv) := by
  unfold declOk
  infer_instance

/-- The prologue line `AddEnv` emits for one declaration. -/
def declLine (kv : String) : String :=
  match splitEq kv.data with
  | (n, some v) => envLine (String.mk n) (String.mk v)
  | (_, none) => ""

/-- The `AddEnv` loop walks a prefix of processable declarations, appending
their lines to the accumulated blob in declaration order. -/
theorem addEnvLoop_append (script : String) (pre l : List String) (blob : String)
    (h : ∀ kv ∈ pre, declOk kv) :
    addEnvLoop script (pre ++ l) blob =
      addEnvLoop script l (blob ++ strConcat (pre.map declLine)) := by
  induction pre generalizing blob with
  | nil => simp [strConcat, String.append_empty]
  | cons kv rest ih =>
    obtain ⟨h1, h2⟩ := h kv (List.mem_cons_self _ _)
    obtain ⟨v, hv⟩ := Option.isSome_iff_exists.mp h1
    rw [List.cons_append, addEnvLoop]
    simp only [if_neg (not_not_intro h2), hv]
    rw [ih (blob ++ envLine (String.mk (splitEq kv.data).1) (String.mk v))
      (fun d hd => h d (List.mem_cons_of_mem _ hd))]
    have hline : declLine kv = envLine (String.mk (splitEq kv.data).1) (String.mk v) := by
      rcases hsp : splitEq kv.data with ⟨n, v2⟩
      rw [hsp] at hv
      simp only at hv
      subst hv
      simp [declLine, hsp]
    simp [strConcat, hline, String.append_assoc]

/-- `AddEnv` on a list of processable declarations: no error, no fault, and
the result is the concatenated prologue followed by the script. -/
theorem addEnv_ok (script : String) (env : List String) (h : ∀ kv ∈ env, declOk kv) :
    AddEnv script env = some (strConcat (env.map declLine) ++ script, none) := by
  have := addEnvLoop_append script env [] "" h
  rw [List.append_nil] at this
  rw [AddEnv, this, addEnvLoop]
  rfl

/-- A string is rebuilt from its character data. -/
theorem strMk_data (s : String) : String.mk s.data = s := by
  cases s
  rfl

/-- C1 counterexample: on `AddEnv "echo hi" ["1BAD=x"]` the code returns the
prologue `1BAD=x; export 1BAD` with no error, because every character of
`1BAD` is a word character and `Quote` leaves it unchanged — the claimed
validation error and empty result do not occur. -/
theorem addEnv_oneBad_not_rejected :
    AddEnv "echo hi" ["1BAD=x"] = some ("1BAD=x; export 1BAD\necho hi", none) ∧
    AddEnv "echo hi" ["1BAD=x"] ≠ some ("", some "shell variable name not valid") := by
  decide

/-- C1 (amended): `AddEnv` rejects a declaration with the validation error and
an empty result exactly when quoting changes the declaration's name (the name
is empty or holds a character outside the safe set), and it does so fail-fast:
any well-formed declarations before the offending one leave no output behind.
Names made only of word characters — such as `1BAD` — pass the check even
though they are not POSIX identifiers. -/
theorem addEnv_rejects_quote_changed_name (script kv : String) (pre rest : List String)
    (hpre : ∀ d ∈ pre, declOk d)
    (h : String.mk (splitEq kv.data).1 ≠ Quote (String.mk (splitEq kv.data).1)) :
    AddEnv script (pre ++ kv :: rest) = some ("", some "shell variable name not valid") := by
  rw [AddEnv, addEnvLoop_append script pre (kv :: rest) "" hpre, addEnvLoop]
  simp only [if_pos h]

/-- C1 witness: `"BAD NAME=x"` (space in the name) is rejected with the
validation error and empty result. -/
theorem addEnv_rejects_quote_changed_name_witness :
    (∀ d ∈ ([] : List String), declOk d) ∧
    String.mk (splitEq ("BAD NAME=x").data).1 ≠
      Quote (String.mk (splitEq ("BAD NAME=x").data).1) ∧
    AddEnv "echo hi" ([] ++ "BAD NAME=x" :: []) =
      some ("", some "shell variable name not valid") :=
  ⟨by decide, by decide,
    addEnv_rejects_quote_changed_name "echo hi" "BAD NAME=x" [] [] (by decide) (by decide)⟩

/-- C2: on declarations that contain `'='` and pass the name check, `AddEnv`
returns, without error, one `NAME=<escaped-value>; export NAME` line per
declaration in declaration order followed by the unchanged script; the empty
list is a no-op, and `AddEnv "echo $FOO" ["FOO=bar baz"]` produces
`FOO='bar baz'; export FOO` and then the script. -/
theorem addEnv_success_prologue (script : String) (env : List String)
    (h : ∀ kv ∈ env, declOk kv) :
    AddEnv script env = some (strConcat (env.map declLine) ++ script, none) ∧
    AddEnv script [] = some (script, none) ∧
    AddEnv "echo hi" [] = some ("echo hi", none) ∧
    AddEnv "echo $FOO" ["FOO=bar baz"] =
      some ("FOO='bar baz'; export FOO\necho $FOO", none) :=
  ⟨addEnv_ok script env h, rfl, rfl, by decide⟩

/-- C2 witness: the `FOO=bar baz` scenario instantiates the general
statement. -/
theorem addEnv_success_prologue_witness :
    (∀ kv ∈ ["FOO=bar baz"], declOk kv) ∧
    AddEnv "echo $FOO" ["FOO=bar baz"] =
      some (strConcat ((["FOO=bar baz"]).map declLine) ++ "echo $FOO", none) :=
  ⟨by decide, (addEnv_success_prologue "echo $FOO" ["FOO=bar baz"] (by decide)).1⟩

/-- C3: for declaration lists whose names match `[A-Za-z_][A-Za-z0-9_]*` and
whose values are arbitrary, each declaration is split at the first `'='` only
(values keep any further `'='`), `AddEnv` emits the escaped prologue without
error, and interpreting each escaped value as a POSIX shell word yields back
exactly the original value — the escaping round-trips to the identity. -/
theorem addEnv_roundtrip (script : String) (decls : List (String × String))
    (h : ∀ p ∈ decls, validShellName p.1 = true) :
    (∀ p ∈ decls, splitEq (p.1 ++ "=" ++ p.2).data = (p.1.data, some p.2.data)) ∧
    AddEnv script (decls.map fun p => p.1 ++ "=" ++ p.2) =
      some (strConcat (decls.map fun p => envLine p.1 p.2) ++ script, none) ∧
    (∀ p ∈ decls, shellWordExpand (Quote p.2) = some p.2) := by
  have hdata : ∀ a b : String, (a ++ b).data = a.data ++ b.data := fun _ _ => rfl
  have hsplit : ∀ p ∈ decls, splitEq (p.1 ++ "=" ++ p.2).data = (p.1.data, some p.2.data) := by
    intro p hp
    have hd : (p.1 ++ "=" ++ p.2).data = p.1.data ++ '=' :: p.2.data := by
      rw [hdata, hdata, List.append_assoc]
      rfl
    rw [hd]
    exact splitEq_append _ _ (validShellName_no_eqSign p.1 (h p hp))
  refine ⟨hsplit, ?_, fun p _ => shellWordExpand_quote p.2⟩
  have hok : ∀ kv ∈ decls.map fun p => p.1 ++ "=" ++ p.2, declOk kv := by
    intro kv hkv
    obtain ⟨p, hp, rfl⟩ := List.mem_map.mp hkv
    constructor
    · rw [hsplit p hp]
      rfl
    · rw [hsplit p hp]
      simp only [strMk_data]
      exact (quote_of_validShellName p.1 (h p hp)).symm
  rw [addEnv_ok _ _ hok, List.map_map]
  have hlines : ∀ p ∈ decls, (declLine ∘ fun p => p.1 ++ "=" ++ p.2) p = envLine p.1 p.2 := by
    intro p hp
    simp only [Function.comp_apply, declLine, hsplit p hp, strMk_data]
  rw [List.map_congr_left hlines]

/-- C3 witness: the name `FOO` with the space-holding value `bar baz`
instantiates the round-trip statement. -/
theorem addEnv_roundtrip_witness :
    (∀ p ∈ [("FOO", "bar baz")], validShellName p.1 = true) ∧
    ((∀ p ∈ [("FOO", "bar baz")],
        splitEq (p.1 ++ "=" ++ p.2).data = (p.1.data, some p.2.data)) ∧
     AddEnv "echo $FOO" ((([("FOO", "bar baz")]).map fun p => p.1 ++ "=" ++ p.2)) =
       some (strConcat (([("FOO", "bar baz")]).map fun p => envLine p.1 p.2) ++
         "echo $FOO", none) ∧
     (∀ p ∈ [("FOO", "bar baz")], shellWordExpand (Quote p.2) = some p.2)) :=
  ⟨by decide, addEnv_roundtrip "echo $FOO" [("FOO", "bar baz")] (by decide)⟩

/-- C10: the loop body reads the value component `kvs[1]` whenever the name
check passes, but a declaration with no `'='` — such as `"FOO"` — splits into
a single component, so that read is out of range: `AddEnv` faults (modelled by
`none`) instead of returning a `(string, error)` pair. -/
theorem addEnv_missing_separator_fault : AddEnv "echo hi" ["FOO"] = none := by
  decide

/-!
Part 2: the `SSHClient` lifecycle (the `done`-channel variant). The mutable
fields of the Go struct are modelled by Booleans (`nil`-ness of the handles,
whether the `done` channel has been closed, whether the raw TCP connection is
open), every external collaborator call is an `Event` recorded in a trace, and
an `Oracle` fixes the outcome of each kind of external call. The two
background goroutines (the cancellation watcher spawned by `getClient` and the
resize forwarder spawned by `Shell`) perform no synchronous effect on these
paths and are not modelled; all claims below are about the synchronous
behaviour of the methods.
-/

/-- The mutable state of an `SSHClient` plus the raw connection it owns:
`connOpen` — a TCP connection was dialed and not yet closed; `client` —
`s.client ≠ nil`; `session` — `s.session ≠ nil`; `done` — the `done` channel
has been closed. -/
structure SSHState where
  connOpen : Bool
  client : Bool
  session : Bool
  done : Bool
deriving DecidableEq

/-- The state `NewSSHClient` returns: nothing dialed, no handles, `done` open. -/
def SSHState.init : SSHState := ⟨false, false, false, false⟩

/-- One external call of the client (plus `closeDone`, the internal one-shot
firing of the `done` channel, recorded so its multiplicity can be stated). -/
inductive Event
  | dialConn
  | handshake
  | newSession
  | stdinPipe
  | sessionShell
  | writeData (s : String)
  | stdinClose
  | sessionWait
  | clientClose
  | closeDone
  | makeRaw
  | restoreTerm
  | getSize
  | requestPty
deriving DecidableEq

/-- Outcome of every kind of external collaborator call: `none` is success,
`some e` the error message the collaborator returns. -/
structure Oracle where
  dialErr : Option String
  handshakeErr : Option String
  newSessionErr : Option String
  sessionWaitErr : Option String
  clientCloseErr : Option String
  stdinPipeErr : Option String
  shellErr : Option String
  writeErr : Option String
  makeRawErr : Option String
  getSizeErr : Option String
  requestPtyErr : Option String
deriving DecidableEq

/-- The all-success oracle. -/
def Oracle.ok : Oracle := ⟨none, none, none, none, none, none, none, none, none, none, none⟩

/-- Result of one method call: the returned error, the state left behind, and
the trace of calls performed. -/
structure StepOut where
  err : Option String
  st : SSHState
  trace : List Event
deriving DecidableEq

/-- `getClient`: no-op when the client handle exists; otherwise dial the raw
connection, then handshake (`ssh.NewClientConn`); the handshake failure path
returns without closing the freshly dialed connection (only the cancellation
watcher, on a context cancellation, would close it). -/
def getClient (o : Oracle) (st : SSHState) : StepOut :=
  if st.client then ⟨none, st, []⟩
  else
    match o.dialErr with
    | some e => ⟨some e, st, [Event.dialConn]⟩
    | none =>
      let st1 := { st with connOpen := true }
      match o.handshakeErr with
      | some e => ⟨some e, st1, [Event.dialConn, Event.handshake]⟩
      | none => ⟨none, { st1 with client := true }, [Event.dialConn, Event.handshake]⟩

/-- `getSession`: no-op when the session handle exists; otherwise
`s.client.NewSession()`. (`dial` only calls it after `getClient` succeeded, so
the `nil`-client dereference cannot occur on the modelled paths.) -/
def getSession (o : Oracle) (st : SSHState) : StepOut :=
  if st.session then ⟨none, st, []⟩
  else
    match o.newSessionErr with
    | some e => ⟨some e, st, [Event.newSession]⟩
    | none => ⟨none, { st with session := true }, [Event.newSession]⟩

/-- The client-release half of `Close`: `s.client.Close()` when the handle
exists; the handle (and the raw connection, which the ssh client owns) is
cleared only on success. -/
def closeClient (o : Oracle) (st : SSHState) : StepOut :=
  if st.client then
    match o.clientCloseErr with
    | some e => ⟨some e, st, [Event.clientClose]⟩
    | none => ⟨none, { st with client := false, connOpen := false }, [Event.clientClose]⟩
  else ⟨none, st, []⟩

/-- The body of `Close` (before the deferred `done`-channel guard): wait on
the session when one exists — returning that error immediately, with the
session handle still set, when the wait fails — then release the client. -/
def closeBody (o : Oracle) (st : SSHState) : StepOut :=
  if st.session then
    match o.sessionWaitErr with
    | some e => ⟨some e, st, [Event.sessionWait]⟩
    | none =>
      let r := closeClient o { st with session := false }
      ⟨r.err, r.st, Event.sessionWait :: r.trace⟩
  else closeClient o st

/-- `Close`: the body plus the deferred one-shot close of the `done` channel
(`select` on `s.done` with a `default` branch), which fires exactly when the
channel is still open. -/
def Close (o : Oracle) (st : SSHState) : StepOut :=
  let r := closeBody o st
  if r.st.done then r
  else ⟨r.err, { r.st with done := true }, r.trace ++ [Event.closeDone]⟩

/-- `dial`: `getClient`, then `getSession`; a session failure triggers a
synchronous `Close` of the established client, wrapping both errors when the
cleanup itself also fails. -/
def dial (o : Oracle) (st : SSHState) : StepOut :=
  let g := getClient o st
  match g.err with
  | some e => ⟨some e, g.st, g.trace⟩
  | none =>
    let s := getSession o g.st
    match s.err with
    | none => ⟨none, s.st, g.trace ++ s.trace⟩
    | some e =>
      let c := Close o s.st
      match c.err with
      | none => ⟨some ("session error: " ++ e), c.st, g.trace ++ s.trace ++ c.trace⟩
      | some ce =>
        ⟨some ("session error: " ++ e ++ ", cleanup error: " ++ ce), c.st,
          g.trace ++ s.trace ++ c.trace⟩

/-- The usage-error message of `mustBeConnected`. -/
def notConnectedMsg : String := "sshclient not connected, did you call Dial()?"

/-- `mustBeConnected`: an error when either handle is absent. -/
def mustBeConnected (st : SSHState) : Option String :=
  if !st.session || !st.client then some notConnectedMsg else none

/-- `stdinPipe`: re-checks `mustBeConnected`, then `s.session.StdinPipe()`. -/
def stdinPipe (o : Oracle) (st : SSHState) : Option String × List Event :=
  match mustBeConnected st with
  | some e => (some e, [])
  | none => (o.stdinPipeErr, [Event.stdinPipe])

/-- `ExecScript`: the usage-error guard, then — with `Close` deferred — the
input pipe, `session.Shell()`, `Fprintln` of the script (one trailing
newline), closing the input pipe, and `session.Wait()`, whose result is
returned; the session handle is cleared right after the wait, before the
deferred `Close` runs (that `Close`'s own error is discarded by `defer`). -/
def ExecScript (o : Oracle) (st : SSHState) (script : String) : StepOut :=
  match mustBeConnected st with
  | some e => ⟨some e, st, []⟩
  | none =>
    let body : StepOut :=
      match stdinPipe o st with
      | (some e, pt) => ⟨some e, st, pt⟩
      | (none, pt) =>
        match o.shellErr with
        | some e => ⟨some e, st, pt ++ [Event.sessionShell]⟩
        | none =>
          match o.writeErr with
          | some e => ⟨some e, st, pt ++ [Event.sessionShell, Event.writeData (script ++ "\n")]⟩
          | none =>
            ⟨o.sessionWaitErr, { st with session := false },
              pt ++ [Event.sessionShell, Event.writeData (script ++ "\n"),
                Event.stdinClose, Event.sessionWait]⟩
    let c := Close o body.st
    ⟨body.err, c.st, body.trace ++ c.trace⟩

/-- `Shell`: the usage-error guard, then — with `Close` deferred — raw mode,
size query, PTY request, `session.Shell()`, and `session.Wait()`; the deferred
terminal restore (registered only once raw mode was entered) runs before the
deferred `Close` on every later exit path, and the session handle is cleared
right after the wait. The resize-forwarding goroutine is joined before return
and performs no call absent a resize signal. -/
def Shell (o : Oracle) (st : SSHState) : StepOut :=
  match mustBeConnected st with
  | some e => ⟨some e, st, []⟩
  | none =>
    let body : StepOut :=
      match o.makeRawErr with
      | some e => ⟨some e, st, [Event.makeRaw]⟩
      | none =>
        let inner : StepOut :=
          match o.getSizeErr with
          | some e => ⟨some e, st, [Event.getSize]⟩
          | none =>
            match o.requestPtyErr with
            | some e => ⟨some e, st, [Event.getSize, Event.requestPty]⟩
            | none =>
              match o.shellErr with
              | some e => ⟨some e, st, [Event.getSize, Event.requestPty, Event.sessionShell]⟩
              | none =>
                ⟨o.sessionWaitErr, { st with session := false },
                  [Event.getSize, Event.requestPty, Event.sessionShell, Event.sessionWait]⟩
        ⟨inner.err, inner.st, Event.makeRaw :: inner.trace ++ [Event.restoreTerm]⟩
    let c := Close o body.st
    ⟨body.err, c.st, body.trace ++ c.trace⟩

example :
    dial { Oracle.ok with handshakeErr := some "auth" } SSHState.init =
      ⟨some "auth", ⟨true, false, false, false⟩, [Event.dialConn, Event.handshake]⟩ := by
  decide

example :
    dial { Oracle.ok with newSessionErr := some "nos" } SSHState.init =
      ⟨some "session error: nos", ⟨false, false, false, true⟩,
        [Event.dialConn, Event.handshake, Event.newSession, Event.clientClose,
          Event.closeDone]⟩ := by
  decide

example :
    dial { Oracle.ok with newSessionErr := some "nos", clientCloseErr := some "cl" }
      SSHState.init =
      ⟨some "session error: nos, cleanup error: cl", ⟨true, true, false, true⟩,
        [Event.dialConn, Event.handshake, Event.newSession, Event.clientClose,
          Event.closeDone]⟩ := by
  decide

/-- C4 counterexample: when the handshake fails after a successful TCP dial,
`dial` returns the handshake error while the freshly dialed raw connection is
still open and no closing call of any kind was made — the partially
constructed resource is not synchronously rolled back. -/
theorem dial_handshake_no_rollback :
    (dial { Oracle.ok with handshakeErr := some "ssh: handshake failed" } SSHState.init).err =
      some "ssh: handshake failed" ∧
    (dial { Oracle.ok with handshakeErr := some "ssh: handshake failed" }
        SSHState.init).st.connOpen = true ∧
    Event.clientClose ∉
      (dial { Oracle.ok with handshakeErr := some "ssh: handshake failed" }
        SSHState.init).trace := by
  decide

/-- C4 (amended): on a fresh Manager, a dial failure returns the transport
error with nothing constructed; a handshake failure returns the error with the
Manager's handles unset but the dialed raw connection left open (it is closed
only by the cancellation watcher or never); a session-open failure triggers a
synchronous `Close` of the established client: when that close succeeds both
handles end unset and the connection is released, while when the cleanup
itself fails the client handle survives (`Close` returns before clearing it)
and the returned error wraps both errors, never suppressing the original
session error. -/
theorem dial_failure_paths (o : Oracle) (e ce : String) :
    (o.dialErr = some e → dial o SSHState.init = ⟨some e, SSHState.init, [Event.dialConn]⟩) ∧
    (o.dialErr = none → o.handshakeErr = some e →
      dial o SSHState.init =
        ⟨some e, ⟨true, false, false, false⟩, [Event.dialConn, Event.handshake]⟩) ∧
    (o.dialErr = none → o.handshakeErr = none → o.newSessionErr = some e →
      o.clientCloseErr = none →
      dial o SSHState.init =
        ⟨some ("session error: " ++ e), ⟨false, false, false, true⟩,
          [Event.dialConn, Event.handshake, Event.newSession, Event.clientClose,
            Event.closeDone]⟩) ∧
    (o.dialErr = none → o.handshakeErr = none → o.newSessionErr = some e →
      o.clientCloseErr = some ce →
      dial o SSHState.init =
        ⟨some ("session error: " ++ e ++ ", cleanup error: " ++ ce),
          ⟨true, true, false, true⟩,
          [Event.dialConn, Event.handshake, Event.newSession, Event.clientClose,
            Event.closeDone]⟩) := by
  refine ⟨fun h1 => ?_, fun h1 h2 => ?_, fun h1 h2 h3 h4 => ?_, fun h1 h2 h3 h4 => ?_⟩
  · simp [dial, getClient, SSHState.init, h1]
  · simp [dial, getClient, SSHState.init, h1, h2]
  · simp [dial, getClient, getSession, Close, closeBody, closeClient, SSHState.init,
      h1, h2, h3, h4]
  · simp [dial, getClient, getSession, Close, closeBody, closeClient, SSHState.init,
      h1, h2, h3, h4]

/-- C4 witness: the session-open-failure path with failing cleanup, at a
concrete oracle, wraps both errors. -/
theorem dial_failure_paths_witness :
    dial { Oracle.ok with newSessionErr := some "nos", clientCloseErr := some "cl" }
      SSHState.init =
      ⟨some ("session error: " ++ "nos" ++ ", cleanup error: " ++ "cl"),
        ⟨true, true, false, true⟩,
        [Event.dialConn, Event.handshake, Event.newSession, Event.clientClose,
          Event.closeDone]⟩ :=
  (dial_failure_paths
      { Oracle.ok with newSessionErr := some "nos", clientCloseErr := some "cl" }
      "nos" "cl").2.2.2 rfl rfl rfl rfl

/-- C5 counterexample: after a first `Close` whose session wait failed, the
session handle is still set, so a second `Close` is not a no-op: it calls the
session wait again and returns the same error, not success. -/
theorem close_second_call_not_noop :
    Close { Oracle.ok with sessionWaitErr := some "wait failed" }
        ((Close { Oracle.ok with sessionWaitErr := some "wait failed" }
          ⟨true, true, true, false⟩).st) =
      ⟨some "wait failed", ⟨true, true, true, true⟩, [Event.sessionWait]⟩ ∧
    (Close { Oracle.ok with sessionWaitErr := some "wait failed" }
        ((Close { Oracle.ok with sessionWaitErr := some "wait failed" }
          ⟨true, true, true, false⟩).st)).err ≠ none := by
  decide

/-- C5 (amended): the `done` channel is fired exactly once across two calls to
`Close` regardless of whether the first call succeeded or failed (the deferred
`select` guard never double-fires), and after a first `Close` that returned no
error a second `Close` is a no-op: no error, no external calls, state
unchanged. After a failed first `Close`, however, the failed step is retried,
because the handles are cleared only on success. -/
theorem close_idempotent_once (o : Oracle) (st : SSHState) (hdone : st.done = false) :
    (((Close o st).trace ++ (Close o (Close o st).st).trace).count Event.closeDone = 1) ∧
    ((Close o st).err = none →
      Close o (Close o st).st = ⟨none, (Close o st).st, []⟩) := by
  obtain ⟨co, cl, se, dn⟩ := st
  simp only at hdone
  subst hdone
  constructor
  · cases se <;> cases cl <;>
      rcases hw : o.sessionWaitErr with _ | e <;>
      rcases hc : o.clientCloseErr with _ | ce <;>
      simp [Close, closeBody, closeClient, hw, hc]
  · intro hok
    cases se <;> cases cl <;>
      rcases hw : o.sessionWaitErr with _ | e <;>
      rcases hc : o.clientCloseErr with _ | ce <;>
      simp [Close, closeBody, closeClient, hw, hc] at hok ⊢

/-- C5 witness: on a connected state with the `done` channel still open and
the all-success oracle, the first `Close` succeeds, the second is a no-op, and
the `done` channel is fired exactly once. -/
theorem close_idempotent_once_witness :
    (SSHState.mk true true true false).done = false ∧
    ((((Close Oracle.ok ⟨true, true, true, false⟩).trace ++
        (Close Oracle.ok (Close Oracle.ok ⟨true, true, true, false⟩).st).trace).count
          Event.closeDone = 1) ∧
      ((Close Oracle.ok ⟨true, true, true, false⟩).err = none →
        Close Oracle.ok (Close Oracle.ok ⟨true, true, true, false⟩).st =
          ⟨none, (Close Oracle.ok ⟨true, true, true, false⟩).st, []⟩)) :=
  ⟨rfl, close_idempotent_once Oracle.ok ⟨true, true, true, false⟩ rfl⟩

/-- C6 counterexample: with a live session and connection, when both the
session wait and the connection close would fail, `Close` returns only the
wait error: the connection close is never attempted (no `clientClose` call),
its error is not reported, and the client handle is still held. -/
theorem close_wait_error_masks_close_error :
    Close { Oracle.ok with
        sessionWaitErr := some "wait: exit 1",
        clientCloseErr := some "close: broken" } ⟨true, true, true, false⟩ =
      ⟨some "wait: exit 1", ⟨true, true, true, true⟩,
        [Event.sessionWait, Event.closeDone]⟩ ∧
    Event.clientClose ∉
      (Close { Oracle.ok with
        sessionWaitErr := some "wait: exit 1",
        clientCloseErr := some "close: broken" } ⟨true, true, true, false⟩).trace ∧
    (Close { Oracle.ok with
        sessionWaitErr := some "wait: exit 1",
        clientCloseErr := some "close: broken" } ⟨true, true, true, false⟩).st.client
      = true := by
  decide

/-- C6 (amended): a session-wait failure short-circuits `Close`: the wait
error is returned alone and immediately, the connection close is not even
attempted — so its error cannot be reported and the connection is not
released — and only the deferred `done` guard still runs. A connection-close
error can surface only when no session exists or the wait succeeded. -/
theorem close_wait_error_short_circuits (o : Oracle) (st : SSHState) (e : String)
    (hs : st.session = true) (hw : o.sessionWaitErr = some e) :
    Close o st = ⟨some e, { st with done := true },
      if st.done then [Event.sessionWait] else [Event.sessionWait, Event.closeDone]⟩ ∧
    Event.clientClose ∉ (Close o st).trace ∧
    (Close o st).st.client = st.client := by
  obtain ⟨co, cl, se, dn⟩ := st
  simp only at hs
  subst hs
  cases dn <;> simp [Close, closeBody, hw]

/-- C6 witness: the counter-scenario of the short-circuit at a concrete
oracle and state. -/
theorem close_wait_error_short_circuits_witness :
    Close { Oracle.ok with sessionWaitErr := some "w" } ⟨true, true, true, false⟩ =
      ⟨some "w", { SSHState.mk true true true false with done := true },
        if (SSHState.mk true true true false).done then [Event.sessionWait]
        else [Event.sessionWait, Event.closeDone]⟩ ∧
    Event.clientClose ∉
      (Close { Oracle.ok with sessionWaitErr := some "w" } ⟨true, true, true, false⟩).trace ∧
    (Close { Oracle.ok with sessionWaitErr := some "w" }
      ⟨true, true, true, false⟩).st.client = (SSHState.mk true true true false).client :=
  close_wait_error_short_circuits { Oracle.ok with sessionWaitErr := some "w" }
    ⟨true, true, true, false⟩ "w" rfl rfl

/-- Shared: an execution operation on a state missing a handle fails with the
usage error, leaves the state alone, and performs no external call. -/
theorem exec_not_connected (o : Oracle) (st : SSHState) (script : String)
    (h : st.session = false ∨ st.client = false) :
    ExecScript o st script = ⟨some notConnectedMsg, st, []⟩ := by
  rcases h with h | h <;> simp [ExecScript, mustBeConnected, h]

/-- Shared: `Shell` on a state missing a handle fails the same way. -/
theorem shell_not_connected (o : Oracle) (st : SSHState)
    (h : st.session = false ∨ st.client = false) :
    Shell o st = ⟨some notConnectedMsg, st, []⟩ := by
  rcases h with h | h <;> simp [Shell, mustBeConnected, h]

/-- Shared: `Close` never sets a cleared session handle. -/
theorem close_keeps_session_cleared (o : Oracle) (st : SSHState)
    (h : st.session = false) : ((Close o st).st).session = false := by
  obtain ⟨co, cl, se, dn⟩ := st
  simp only at h
  subst h
  cases cl <;> cases dn <;>
    rcases hc : o.clientCloseErr with _ | ce <;>
    simp [Close, closeBody, closeClient, hc]

/-- C8: on a Manager missing either handle (in particular one that never had a
successful connect), both execution operations fail immediately with the
not-connected usage error, leave the state unchanged, and perform no external
call of any kind. -/
theorem exec_before_connect_fails (o : Oracle) (st : SSHState) (script : String)
    (h : st.session = false ∨ st.client = false) :
    ExecScript o st script = ⟨some notConnectedMsg, st, []⟩ ∧
    Shell o st = ⟨some notConnectedMsg, st, []⟩ :=
  ⟨exec_not_connected o st script h, shell_not_connected o st h⟩

/-- C8 witness: a freshly constructed Manager rejects both operations. -/
theorem exec_before_connect_fails_witness :
    (SSHState.init.session = false ∨ SSHState.init.client = false) ∧
    ExecScript Oracle.ok SSHState.init "echo hi" =
      ⟨some notConnectedMsg, SSHState.init, []⟩ ∧
    Shell Oracle.ok SSHState.init = ⟨some notConnectedMsg, SSHState.init, []⟩ :=
  ⟨Or.inl rfl, exec_before_connect_fails Oracle.ok SSHState.init "echo hi" (Or.inl rfl)⟩

/-- C9: on a connected Manager, when the pipe, shell request and write
succeed, `ExecScript` performs exactly the claimed sequence — input pipe,
remote shell request, one write of the script followed by a single newline,
input-stream close, session wait — followed by the deferred teardown calls,
and the error it returns is exactly the session wait's result. -/
theorem execScript_sequence (o : Oracle) (st : SSHState) (script : String)
    (hs : st.session = true) (hc : st.client = true)
    (hp : o.stdinPipeErr = none) (hsh : o.shellErr = none) (hw : o.writeErr = none) :
    (ExecScript o st script).err = o.sessionWaitErr ∧
    (ExecScript o st script).trace =
      [Event.stdinPipe, Event.sessionShell, Event.writeData (script ++ "\n"),
        Event.stdinClose, Event.sessionWait] ++
        (Close o { st with session := false }).trace := by
  constructor <;>
    simp [ExecScript, stdinPipe, mustBeConnected, hs, hc, hp, hsh, hw]

/-- C9 witness: the sequence at a concrete connected state and the all-success
oracle. -/
theorem execScript_sequence_witness :
    (ExecScript Oracle.ok ⟨true, true, true, false⟩ "echo hi").err =
      Oracle.ok.sessionWaitErr ∧
    (ExecScript Oracle.ok ⟨true, true, true, false⟩ "echo hi").trace =
      [Event.stdinPipe, Event.sessionShell, Event.writeData ("echo hi" ++ "\n"),
        Event.stdinClose, Event.sessionWait] ++
        (Close Oracle.ok { SSHState.mk true true true false with session := false }).trace :=
  execScript_sequence Oracle.ok ⟨true, true, true, false⟩ "echo hi" rfl rfl rfl rfl rfl

/-- C7 counterexample: when an execution operation fails before its own wait
(here: the remote-shell request fails) and the deferred `Close`'s session wait
also fails, both handles survive, so a second `ExecScript` is not rejected
with the not-connected error and performs external calls again. -/
theorem execScript_reusable_after_failed_teardown :
    (ExecScript { Oracle.ok with
        shellErr := some "shell failed",
        sessionWaitErr := some "wait failed" }
      ((ExecScript { Oracle.ok with
          shellErr := some "shell failed",
          sessionWaitErr := some "wait failed" }
        ⟨true, true, true, false⟩ "a").st) "b").err ≠ some notConnectedMsg ∧
    (ExecScript { Oracle.ok with
        shellErr := some "shell failed",
        sessionWaitErr := some "wait failed" }
      ((ExecScript { Oracle.ok with
          shellErr := some "shell failed",
          sessionWaitErr := some "wait failed" }
        ⟨true, true, true, false⟩ "a").st) "b").trace ≠ [] := by
  decide

/-- C7 (amended): after an execution operation that reached its own
session-wait stage — in particular after any successful run — the session
handle is cleared before the deferred `Close`, so every later execution
operation fails with the not-connected error and performs no external call.
When the operation fails before its wait, the guarantee holds only if the
deferred `Close`'s session wait succeeds; if that wait also fails, both
handles survive and a later call is not rejected. -/
theorem exec_consumes_connection (o : Oracle) (st : SSHState) (script s2 : String)
    (hs : st.session = true) (hc : st.client = true)
    (hp : o.stdinPipeErr = none) (hsh : o.shellErr = none) (hw : o.writeErr = none)
    (hmr : o.makeRawErr = none) (hgs : o.getSizeErr = none) (hpty : o.requestPtyErr = none) :
    ((ExecScript o st script).st).session = false ∧
    ExecScript o ((ExecScript o st script).st) s2 =
      ⟨some notConnectedMsg, (ExecScript o st script).st, []⟩ ∧
    Shell o ((ExecScript o st script).st) =
      ⟨some notConnectedMsg, (ExecScript o st script).st, []⟩ ∧
    ((Shell o st).st).session = false ∧
    ExecScript o ((Shell o st).st) s2 = ⟨some notConnectedMsg, (Shell o st).st, []⟩ ∧
    Shell o ((Shell o st).st) = ⟨some notConnectedMsg, (Shell o st).st, []⟩ := by
  have hexec : ((ExecScript o st script).st).session = false := by
    have : (ExecScript o st script).st = (Close o { st with session := false }).st := by
      simp [ExecScript, stdinPipe, mustBeConnected, hs, hc, hp, hsh, hw]
    rw [this]
    exact close_keeps_session_cleared o _ rfl
  have hshell : ((Shell o st).st).session = false := by
    have : (Shell o st).st = (Close o { st with session := false }).st := by
      simp [Shell, mustBeConnected, hs, hc, hmr, hgs, hpty, hsh]
    rw [this]
    exact close_keeps_session_cleared o _ rfl
  exact ⟨hexec,
    exec_not_connected o _ s2 (Or.inl hexec),
    shell_not_connected o _ (Or.inl hexec),
    hshell,
    exec_not_connected o _ s2 (Or.inl hshell),
    shell_not_connected o _ (Or.inl hshell)⟩

/-- C7 witness: a successful run at the all-success oracle consumes the
connected state. -/
theorem exec_consumes_connection_witness :
    ((ExecScript Oracle.ok ⟨true, true, true, false⟩ "a").st).session = false ∧
    ExecScript Oracle.ok ((ExecScript Oracle.ok ⟨true, true, true, false⟩ "a").st) "b" =
      ⟨some notConnectedMsg, (ExecScript Oracle.ok ⟨true, true, true, false⟩ "a").st, []⟩ ∧
    Shell Oracle.ok ((ExecScript Oracle.ok ⟨true, true, true, false⟩ "a").st) =
      ⟨some notConnectedMsg, (ExecScript Oracle.ok ⟨true, true, true, false⟩ "a").st, []⟩ ∧
    ((Shell Oracle.ok ⟨true, true, true, false⟩).st).session = false ∧
    ExecScript Oracle.ok ((Shell Oracle.ok ⟨true, true, true, false⟩).st) "b" =
      ⟨some notConnectedMsg, (Shell Oracle.ok ⟨true, true, true, false⟩).st, []⟩ ∧
    Shell Oracle.ok ((Shell Oracle.ok ⟨true, true, true, false⟩).st) =
      ⟨some notConnectedMsg, (Shell Oracle.ok ⟨true, true, true, false⟩).st, []⟩ :=
  exec_consumes_connection Oracle.ok ⟨true, true, true, false⟩ "a" "b"
    rfl rfl rfl rfl rfl rfl rfl rfl

end GoSSHClient
